import Mathlib

/-!
Shallow embedding of `src/Downloads/roofing_scraper_auto_mode/scrapers/texas_cad_scraper.py`
(class `TexasCADScraper`) and proofs about its lead-scoring, reference-table lookup,
synthetic-record generation, aggregation and CSV-export logic.

Modelling conventions:
- Python `int` is `Int`; Python floats produced by `random.uniform` and by the value
  derivation are modelled as exact rationals `ℚ`; Python `int(x)` (truncation toward
  zero) is `pyint`.
- The pseudo-random source is made explicit: every `random.*` draw of the generator
  becomes a field of `PropertyDraws`, constrained by `PropertyDraws.Valid` to the
  exact range the corresponding call can produce.
- `datetime.now().year` (read inside `calculate_cad_lead_score`) and
  `datetime.now().isoformat()` are explicit parameters `current_year` / `scraped_at`.
- Python's `'&' in owner_name` is membership of the character in the string's
  character data: `owner_name.data.contains '&'`.
- File I/O is modelled by its observable effect: `save_to_csv` returns
  `Option CsvFile` (`none` = no file created, no bytes written).
-/

namespace TexasCAD

/-- Python `int(q)` for a rational: truncation toward zero. -/
def pyint (q : ℚ) : Int := if 0 ≤ q then ⌊q⌋ else -⌊-q⌋

/-- One entry of the `texas_cads` reference table: `url`, `population`, `major_cities`. -/
structure CadInfo where
  url : String
  population : Nat
  major_cities : List String
deriving DecidableEq

/-- The `self.texas_cads` table (lines 37–88), in insertion order. -/
def texas_cads : List (String × CadInfo) :=
  [ ("Harris County", ⟨"https://hcad.org", 4731145,
      ["Houston", "Pasadena", "Pearland", "League City"]⟩),
    ("Dallas County", ⟨"https://dallascad.org", 2613539,
      ["Dallas", "Irving", "Garland", "Mesquite", "Richardson"]⟩),
    ("Tarrant County", ⟨"https://tad.org", 2110640,
      ["Fort Worth", "Arlington", "Grand Prairie", "Mansfield"]⟩),
    ("Bexar County", ⟨"https://bcad.org", 2009324,
      ["San Antonio", "Live Oak", "Converse", "Universal City"]⟩),
    ("Travis County", ⟨"https://tcad.org", 1290188,
      ["Austin", "Round Rock", "Pflugerville", "Cedar Park"]⟩),
    ("Collin County", ⟨"https://collincad.org", 1064465,
      ["Plano", "McKinney", "Frisco", "Allen"]⟩),
    ("Hidalgo County", ⟨"https://hidalgocad.org", 870781,
      ["McAllen", "Edinburg", "Mission", "Pharr"]⟩),
    ("Fort Bend County", ⟨"https://fbcad.org", 822779,
      ["Sugar Land", "Missouri City", "Stafford", "Richmond"]⟩),
    ("Denton County", ⟨"https://dentoncad.com", 906422,
      ["Denton", "Lewisville", "Flower Mound", "Carrollton"]⟩),
    ("Montgomery County", ⟨"https://mctx.org", 620443,
      ["Conroe", "The Woodlands", "Spring", "Tomball"]⟩) ]

/-- The `zip_ranges` table inside `generate_zipcode_for_county` (lines 220–231). -/
def zip_ranges : List (String × List String) :=
  [ ("Harris County", ["77001", "77002", "77003", "77004", "77005", "77006", "77007"]),
    ("Dallas County", ["75201", "75204", "75206", "75214", "75218", "75230", "75240"]),
    ("Tarrant County", ["76101", "76104", "76108", "76116", "76120", "76132", "76140"]),
    ("Bexar County", ["78201", "78202", "78203", "78204", "78205", "78206", "78207"]),
    ("Travis County", ["78701", "78702", "78703", "78704", "78705", "78728", "78729"]),
    ("Collin County", ["75002", "75009", "75013", "75023", "75024", "75070", "75071"]),
    ("Hidalgo County", ["78501", "78502", "78503", "78504", "78539", "78540", "78541"]),
    ("Fort Bend County", ["77469", "77478", "77479", "77489", "77498", "77584", "77585"]),
    ("Denton County", ["76201", "76205", "76226", "75019", "75022", "75028", "75067"]),
    ("Montgomery County", ["77301", "77302", "77303", "77304", "77384", "77385", "77386"]) ]

/-- `generate_zipcode_for_county` (lines 218–233):
`random.choice(zip_ranges.get(county, ['75001']))`.  The random choice is modelled
by an index `i`; `random.choice` picks `pool[i % len(pool)]` for some `i`.
Every pool in the table is non-empty, so the inner `getD` fallback is dead code. -/
def generate_zipcode_for_county (county : String) (i : Nat) : String :=
  let pool := (zip_ranges.lookup county).getD ["75001"]
  pool.getD (i % pool.length) "75001"

/-- The `base_values` table inside `get_base_property_value` (lines 237–248). -/
def base_values : List (String × Int) :=
  [ ("Harris County", 280000),
    ("Dallas County", 320000),
    ("Tarrant County", 280000),
    ("Bexar County", 220000),
    ("Travis County", 450000),
    ("Collin County", 380000),
    ("Hidalgo County", 150000),
    ("Fort Bend County", 350000),
    ("Denton County", 350000),
    ("Montgomery County", 300000) ]

/-- `get_base_property_value` (lines 235–250): `base_values.get(county, 250000)`. -/
def get_base_property_value (county : String) : Int :=
  (base_values.lookup county).getD 250000

/-- `calculate_cad_lead_score` (lines 252–279).  `current_year` is the value of
`datetime.now().year` at call time, made an explicit parameter. -/
def calculate_cad_lead_score (value : Int) (year_built : Int) (owner_name : String)
    (current_year : Int) : Int :=
  let score : Int := 5
  let score := if value > 500000 then score + 3
    else if value > 300000 then score + 2
    else if value > 200000 then score + 1
    else score
  let age := current_year - year_built
  let score := if age > 15 then score + 3
    else if age > 10 then score + 2
    else if age > 5 then score + 1
    else score
  let score := if owner_name.data.contains '&' then score + 1 else score
  min score 10

/-- The `first_names` list of `create_texas_cad_sample_data` (lines 104–108). -/
def first_names : List String :=
  [ "James", "Mary", "John", "Patricia", "Robert", "Jennifer", "Michael", "Linda",
    "William", "Elizabeth", "David", "Barbara", "Richard", "Susan", "Joseph", "Jessica",
    "Thomas", "Sarah", "Christopher", "Karen", "Charles", "Nancy", "Daniel", "Lisa" ]

/-- The `last_names` list (lines 110–114). -/
def last_names : List String :=
  [ "Smith", "Johnson", "Williams", "Brown", "Jones", "Garcia", "Miller", "Davis",
    "Rodriguez", "Martinez", "Hernandez", "Lopez", "Gonzalez", "Wilson", "Anderson",
    "Thomas", "Taylor", "Moore", "Jackson", "Martin", "Lee", "Perez", "Thompson" ]

/-- The `street_names` list (lines 116–121). -/
def street_names : List String :=
  [ "Main St", "Oak Ave", "Elm St", "Park Blvd", "Cedar Ln", "Maple Dr",
    "Pine St", "Hill Rd", "Valley View", "Sunset Blvd", "Heritage Way",
    "Legacy Dr", "Champions Blvd", "Preston Rd", "Spring Valley", "Ranch Rd",
    "County Line Rd", "Farm to Market Rd", "State Highway", "Business Park Dr" ]

/-- The `property_types` list (lines 123–126). -/
def property_types : List String :=
  [ "Single Family Residence", "Townhouse", "Condominium",
    "Mobile Home", "Duplex", "Commercial Property" ]

/-- All pseudo-random draws consumed while building one property record
(lines 135–188), one field per `random.*` call, in source order.  Draws made by
`random.choice` are modelled by the chosen element (`random.choice` returns an
element of its argument; membership is recorded in `Valid`); the ZIP choice keeps
the index form used by `generate_zipcode_for_county`. -/
structure PropertyDraws where
  first_name : String
  last_name : String
  joint_draw : ℚ
  spouse_first : String
  house_number : Nat
  street : String
  city : String
  zip_choice : Nat
  year_built : Int
  square_feet : Int
  lot_size : ℚ
  value_u : ℚ
  market_u : ℚ
  acct_hi : Nat
  acct_lo : Nat
  property_type : String
  homestead_choice : Bool
  sale_year : Nat
  sale_month : Nat
  sale_day : Nat
  sale_u : ℚ

/-- The exact ranges each `random.*` call of lines 135–188 can produce
(`random.random() ∈ [0,1)`, `random.randint(a,b) ∈ [a,b]`,
`random.uniform(a,b) ∈ [a,b]`, `random.choice(l) ∈ l`).
`lot_size` ranges over `round(uniform(0.15,1.2), 2)`, hence stays in `[0.15, 1.2]`. -/
def PropertyDraws.Valid (info : CadInfo) (d : PropertyDraws) : Prop :=
  d.first_name ∈ first_names ∧ d.last_name ∈ last_names ∧
  0 ≤ d.joint_draw ∧ d.joint_draw < 1 ∧ d.spouse_first ∈ first_names ∧
  100 ≤ d.house_number ∧ d.house_number ≤ 9999 ∧
  d.street ∈ street_names ∧ d.city ∈ info.major_cities ∧
  1975 ≤ d.year_built ∧ d.year_built ≤ 2023 ∧
  1200 ≤ d.square_feet ∧ d.square_feet ≤ 4500 ∧
  (3/20 : ℚ) ≤ d.lot_size ∧ d.lot_size ≤ 6/5 ∧
  (4/5 : ℚ) ≤ d.value_u ∧ d.value_u ≤ 13/10 ∧
  (19/20 : ℚ) ≤ d.market_u ∧ d.market_u ≤ 21/20 ∧
  10000 ≤ d.acct_hi ∧ d.acct_hi ≤ 99999 ∧ 100 ≤ d.acct_lo ∧ d.acct_lo ≤ 999 ∧
  d.property_type ∈ property_types ∧
  2018 ≤ d.sale_year ∧ d.sale_year ≤ 2024 ∧
  1 ≤ d.sale_month ∧ d.sale_month ≤ 12 ∧ 1 ≤ d.sale_day ∧ d.sale_day ≤ 28 ∧
  (17/20 : ℚ) ≤ d.sale_u ∧ d.sale_u ≤ 23/20

/-- One generated property dict (lines 168–188), field for field. -/
structure PropertyRecord where
  account_number : String
  owner_name : String
  property_address : String
  city : String
  county : String
  zipcode : String
  property_type : String
  year_built : Int
  square_feet : Int
  lot_size_acres : ℚ
  appraised_value : Int
  market_value : Int
  homestead_exemption : Bool
  last_sale_date : String
  last_sale_price : Int
  cad_url : String
  lead_score : Int
  data_source : String
  scraped_at : String

/-- Two-digit zero padding, as in the `:02d` format of line 182. -/
def pad2 (n : Nat) : String := if n < 10 then "0" ++ toString n else toString n

/-- The body of the inner loop of `create_texas_cad_sample_data` (lines 135–188):
builds one property dict for `county` from one batch of random draws.
`current_year` is `datetime.now().year` seen by `calculate_cad_lead_score`;
`scraped_at` is `datetime.now().isoformat()`.
The `homestead_exemption` guard `'Residence' in property_types[0]` is true
(`property_types[0] = "Single Family Residence"`), so the field is the drawn boolean. -/
def makeProperty (county : String) (info : CadInfo) (current_year : Int)
    (scraped_at : String) (d : PropertyDraws) : PropertyRecord :=
  let owner_name :=
    if d.joint_draw > 7/10 then
      d.first_name ++ " & " ++ d.spouse_first ++ " " ++ d.last_name
    else
      d.first_name ++ " " ++ d.last_name
  let zipcode := generate_zipcode_for_county county d.zip_choice
  let address := toString d.house_number ++ " " ++ d.street ++ ", " ++ d.city
    ++ ", TX " ++ zipcode
  let base_value := get_base_property_value county
  let age_factor : ℚ := max (7/10) (1 - (2024 - (d.year_built : ℚ)) * (1/100))
  let size_factor : ℚ := (d.square_feet : ℚ) / 2000
  let estimated_value : Int :=
    pyint ((base_value : ℚ) * age_factor * size_factor * d.value_u)
  let account_number := toString d.acct_hi ++ "-" ++ toString d.acct_lo
  { account_number := account_number
    owner_name := owner_name
    property_address := address
    city := d.city
    county := county
    zipcode := zipcode
    property_type := d.property_type
    year_built := d.year_built
    square_feet := d.square_feet
    lot_size_acres := d.lot_size
    appraised_value := estimated_value
    market_value := pyint ((estimated_value : ℚ) * d.market_u)
    homestead_exemption := d.homestead_choice
    last_sale_date := toString d.sale_year ++ "-" ++ pad2 d.sale_month ++ "-"
      ++ pad2 d.sale_day
    last_sale_price := pyint ((estimated_value : ℚ) * d.sale_u)
    cad_url := info.url ++ "/property-detail/" ++ account_number
    lead_score := calculate_cad_lead_score estimated_value d.year_built owner_name
      current_year
    data_source := "CAD"
    scraped_at := scraped_at }

/-- The per-county record count of line 133:
`min(max(int(population / 100000), 5), 15)`.  For every population in the
configured table, truncated float division equals `Nat` floor division. -/
def property_count (population : Nat) : Nat :=
  min (max (population / 100000) 5) 15

/-- The records the inner loop of lines 135–214 appends for one county:
`property_count` iterations, each consuming one batch of draws. -/
def genCountyProperties (county : String) (info : CadInfo) (current_year : Int)
    (scraped_at : String) (ds : Nat → PropertyDraws) : List PropertyRecord :=
  (List.range (property_count info.population)).map
    (fun i => makeProperty county info current_year scraped_at (ds i))

/-- `create_texas_cad_sample_data` (lines 99–216): iterate the `texas_cads`
table in insertion order, appending each county's generated records.
`ds county i` is the draw batch consumed by the `i`-th record of `county`
(county names are distinct table keys, so keying the draw supply by name
loses nothing). -/
def create_texas_cad_sample_data (current_year : Int) (scraped_at : String)
    (ds : String → Nat → PropertyDraws) : List PropertyRecord :=
  (texas_cads.map
    (fun p => genCountyProperties p.1 p.2 current_year scraped_at (ds p.1))).flatten

/-- The `value_ranges` histogram dict of `get_cad_stats` (lines 325–330).
Python keys `under_200k`, `200k_400k`, `400k_600k`, `over_600k`. -/
structure ValueRanges where
  under_200k : Nat
  range_200k_400k : Nat
  range_400k_600k : Nat
  over_600k : Nat
deriving DecidableEq

/-- The `lead_scores` tier dict of line 331. -/
structure LeadScores where
  high : Nat
  medium : Nat
  low : Nat
deriving DecidableEq

/-- The mutable accumulators of the `get_cad_stats` loop (lines 324–362). -/
structure StatsAcc where
  counties : List (String × Nat)
  value_ranges : ValueRanges
  lead_scores : LeadScores
  homestead_count : Nat
  total_value : Int

/-- `counties[county] = counties.get(county, 0) + 1` on an insertion-ordered
association list, as a Python dict update behaves. -/
def bumpCounty (cs : List (String × Nat)) (county : String) : List (String × Nat) :=
  match cs with
  | [] => [(county, 1)]
  | (k, v) :: rest =>
    if k = county then (k, v + 1) :: rest else (k, v) :: bumpCounty rest county

/-- One iteration of the `for prop in self.all_properties` loop (lines 335–362). -/
def statsStep (acc : StatsAcc) (prop : PropertyRecord) : StatsAcc :=
  let counties := bumpCounty acc.counties prop.county
  let value := prop.appraised_value
  let total_value := acc.total_value + value
  let vr := acc.value_ranges
  let vr :=
    if value < 200000 then { vr with under_200k := vr.under_200k + 1 }
    else if value < 400000 then { vr with range_200k_400k := vr.range_200k_400k + 1 }
    else if value < 600000 then { vr with range_400k_600k := vr.range_400k_600k + 1 }
    else { vr with over_600k := vr.over_600k + 1 }
  let ls := acc.lead_scores
  let ls :=
    if prop.lead_score ≥ 8 then { ls with high := ls.high + 1 }
    else if prop.lead_score ≥ 6 then { ls with medium := ls.medium + 1 }
    else { ls with low := ls.low + 1 }
  let homestead_count :=
    if prop.homestead_exemption then acc.homestead_count + 1 else acc.homestead_count
  { counties := counties
    value_ranges := vr
    lead_scores := ls
    homestead_count := homestead_count
    total_value := total_value }

/-- The dict returned by `get_cad_stats` on a non-empty record set (lines 364–373). -/
structure CadStats where
  total_properties : Nat
  total_appraised_value : Int
  average_value : Int
  counties : List (String × Nat)
  value_ranges : ValueRanges
  lead_scores : LeadScores
  homestead_properties : Nat
  scraped_at : String

/-- `get_cad_stats` (lines 319–373).  `if not self.all_properties: return {}` is the
`none` branch, taken before any accumulation or division; `now` is
`datetime.now().isoformat()`.  On non-empty input, `average_value` is
`int(total_value / len(...))` — Python float division then truncation — and the
`if self.all_properties else 0` guard of line 367 is vacuous in this branch. -/
def get_cad_stats (props : List PropertyRecord) (now : String) : Option CadStats :=
  if props.isEmpty then none
  else
    let acc := props.foldl statsStep ⟨[], ⟨0, 0, 0, 0⟩, ⟨0, 0, 0⟩, 0, 0⟩
    some { total_properties := props.length
           total_appraised_value := acc.total_value
           average_value := pyint ((acc.total_value : ℚ) / (props.length : ℚ))
           counties := acc.counties
           value_ranges := acc.value_ranges
           lead_scores := acc.lead_scores
           homestead_properties := acc.homestead_count
           scraped_at := now }

/-- `stats.get('total_properties', 0)`: how `main` (line 408) reads the result of
`get_cad_stats`, with `0` as default when the dict is empty. -/
def stats_total_properties (o : Option CadStats) : Nat :=
  match o with
  | none => 0
  | some s => s.total_properties

/-- `stats.get('average_value', 0)`: how `main` (line 410) reads the result of
`get_cad_stats`, with `0` as default when the dict is empty. -/
def stats_average_value (o : Option CadStats) : Int :=
  match o with
  | none => 0
  | some s => s.average_value

/-- `list(self.all_properties[0].keys())` (line 380): the key set of every dict
built by `create_texas_cad_sample_data` (lines 168–188), in insertion order.
The schema is the same for every record, but the code reads it off the first one;
the parameter records that dependency. -/
def recordFieldnames (_p : PropertyRecord) : List String :=
  [ "account_number", "owner_name", "property_address", "city", "county", "zipcode",
    "property_type", "year_built", "square_feet", "lot_size_acres", "appraised_value",
    "market_value", "homestead_exemption", "last_sale_date", "last_sale_price",
    "cad_url", "lead_score", "data_source", "scraped_at" ]

/-- The observable effect of a completed `save_to_csv` call: the file it creates. -/
structure CsvFile where
  filename : String
  header : List String
  rows : List PropertyRecord

/-- `save_to_csv` (lines 375–387), by its observable effect: on an empty record
set the guard `if not self.all_properties: return` fires and nothing is opened,
created or written (`none`); otherwise one file is written whose header row comes
from the first record's field names and whose rows are all records. -/
def save_to_csv (filename : String) (props : List PropertyRecord) : Option CsvFile :=
  match props with
  | [] => none
  | p :: _ => some { filename := filename, header := recordFieldnames p, rows := props }

/-- C1: on an empty accumulated record set, `get_cad_stats` returns the empty
result (`return {}`, the `none` branch), reached before the `total_value / len`
division of line 367 can execute; reading `total_properties` and `average_value`
off that result the way `main` does (`stats.get(key, 0)`) yields `0` and `0`. -/
theorem C1_empty_stats_zero (now : String) :
    get_cad_stats [] now = none ∧
    stats_total_properties (get_cad_stats [] now) = 0 ∧
    stats_average_value (get_cad_stats [] now) = 0 :=
  ⟨rfl, rfl, rfl⟩

/-- C2 counterexample: `"Atlantis County"` is in neither reference table, yet
`generate_zipcode_for_county` silently yields the default ZIP `'75001'` and
`get_base_property_value` the default `250000`; no error of any kind is raised,
refuting "generation fails with a Configuration error; it does not silently
substitute default values". -/
theorem C2_unknown_county_defaults_counterexample :
    zip_ranges.lookup "Atlantis County" = none ∧
    base_values.lookup "Atlantis County" = none ∧
    generate_zipcode_for_county "Atlantis County" 0 = "75001" ∧
    get_base_property_value "Atlantis County" = 250000 := by
  decide

/-- C2 amended: for a county name not present in the configured reference
tables, generation does not fail; the lookups silently substitute the defaults —
the ZIP pool collapses to `'75001'` (whatever the random choice) and the base
property value to `250000`. -/
theorem C2_unknown_county_defaults (county : String) (i : Nat)
    (hz : zip_ranges.lookup county = none)
    (hb : base_values.lookup county = none) :
    generate_zipcode_for_county county i = "75001" ∧
    get_base_property_value county = 250000 := by
  constructor
  · simp [generate_zipcode_for_county, hz]
  · simp [get_base_property_value, hb]

/-- Witness for C2 amended, at the unknown county `"Atlantis County"` and
random index `7`. -/
theorem C2_unknown_county_defaults_witness :
    zip_ranges.lookup "Atlantis County" = none ∧
    base_values.lookup "Atlantis County" = none ∧
    (generate_zipcode_for_county "Atlantis County" 7 = "75001" ∧
      get_base_property_value "Atlantis County" = 250000) :=
  ⟨by decide, by decide,
    C2_unknown_county_defaults "Atlantis County" 7 (by decide) (by decide)⟩

/-- C4: for every `(value, year_built, owner_name)` input — and every calendar
year the clock can report — the lead score is an integer in `[5, 10]` (hence in
`[1, 10]`): base `5`, non-negative tier adjustments, clamped above at `10`. -/
theorem C4_score_range (value year_built : Int) (owner_name : String)
    (current_year : Int) :
    5 ≤ calculate_cad_lead_score value year_built owner_name current_year ∧
    calculate_cad_lead_score value year_built owner_name current_year ≤ 10 := by
  simp only [calculate_cad_lead_score]
  split_ifs <;> omega

/-- C5 counterexample: the scorer reads the wall clock (`datetime.now().year`,
line 265), so it is not a function of its three inputs alone: the very same
`(value, year_built, owner_name)` scores `5` when the clock reads 2024 and `8`
when it reads 2040. -/
theorem C5_clock_dependence_counterexample :
    ¬ (calculate_cad_lead_score 150000 2020 "Jane Doe" 2024 =
       calculate_cad_lead_score 150000 2020 "Jane Doe" 2040) := by
  decide

/-- C5 amended: the scorer uses no randomness and no mutable state, but it does
read the current calendar year; its result is fully determined by the appraised
value, the property age `current_year - year_built`, and whether the owner name
contains the joint-ownership marker.  For a fixed clock year it is deterministic
in its three inputs. -/
theorem C5_score_determined_by_value_age_marker (value y₁ c₁ y₂ c₂ : Int)
    (n₁ n₂ : String)
    (hage : c₁ - y₁ = c₂ - y₂)
    (hmark : n₁.data.contains '&' = n₂.data.contains '&') :
    calculate_cad_lead_score value y₁ n₁ c₁ = calculate_cad_lead_score value y₂ n₂ c₂ := by
  simp only [calculate_cad_lead_score, hage, hmark]

/-- Witness for C5 amended: same value, same age (24 years), same marker,
different owner names and clock years — equal scores. -/
theorem C5_score_determined_witness :
    ((2024 : Int) - 2000 = 2034 - 2010) ∧
    ("John & Mary Smith").data.contains '&' = ("A & B Corp").data.contains '&' ∧
    calculate_cad_lead_score 250000 2000 "John & Mary Smith" 2024 =
      calculate_cad_lead_score 250000 2010 "A & B Corp" 2034 :=
  ⟨by decide, by decide,
    C5_score_determined_by_value_age_marker 250000 2000 2024 2010 2034
      "John & Mary Smith" "A & B Corp" (by decide) (by decide)⟩

/-- C9: the two worked scoring examples.  At `current_year = 2024`,
`score(600000, 2000, "John & Mary Smith")` hits every adjustment
(`5 + 3 + 3 + 1 = 12`) and clamps to `10`; `score(150000, 2022, "Jane Doe")`
hits none and returns the base `5`. -/
theorem C9_score_examples :
    calculate_cad_lead_score 600000 2000 "John & Mary Smith" 2024 = 10 ∧
    calculate_cad_lead_score 150000 2022 "Jane Doe" 2024 = 5 := by
  decide

/-- C10: on an empty accumulated record set, `save_to_csv` returns at the
`if not self.all_properties: return` guard: no file is created, no header row is
written (the result is `none` whatever the filename), and the
`self.all_properties[0]` read that would supply the column schema is confined to
the non-empty branch of the definition, so it is never reached. -/
theorem C10_save_empty_writes_nothing (filename : String) :
    save_to_csv filename [] = none :=
  rfl

/-- C6 counterexample: the joint-ownership marker does **not** always add `+1`
to the returned score.  At value `600000`, year built `2000`, clock year `2024`
the unclamped score is already `11` without the marker, so both owner names
score the clamped `10`: the score with `'&'` is not the score without it plus
one. -/
theorem C6_joint_marker_counterexample :
    calculate_cad_lead_score 600000 2000 "John & Mary Smith" 2024 = 10 ∧
    calculate_cad_lead_score 600000 2000 "John Smith" 2024 = 10 ∧
    ¬ (calculate_cad_lead_score 600000 2000 "John & Mary Smith" 2024 =
       calculate_cad_lead_score 600000 2000 "John Smith" 2024 + 1) := by
  decide

/-- Closed form of the sequential score updates of lines 254–279: base `5`,
plus the value tier, plus the age tier, plus the joint-ownership bonus, clamped
at `10`. -/
lemma score_closedForm (v y c : Int) (b : Bool) (n : String)
    (hn : n.data.contains '&' = b) :
    calculate_cad_lead_score v y n c =
      min (5 + (if v > 500000 then (3 : Int) else if v > 300000 then 2
            else if v > 200000 then 1 else 0)
          + (if c - y > 15 then (3 : Int) else if c - y > 10 then 2
            else if c - y > 5 then 1 else 0)
          + (if b then (1 : Int) else 0)) 10 := by
  subst hn
  simp only [calculate_cad_lead_score]
  split_ifs <;> omega

set_option maxHeartbeats 1600000 in
/-- C6 amended: the lead score is monotonically non-decreasing in appraised
value (fixed year and name) and in property age `current_year - year_built`
(fixed value and name); and an owner name carrying the joint-ownership marker
`'&'` adds `+1` to the unclamped score, so relative to a name without the
marker the returned score is `min (score_without + 1) 10` — exactly `+1`
whenever the clamp does not bind, and never smaller. -/
theorem C6_monotone_and_joint_marker :
    (∀ v₁ v₂ y : Int, ∀ n : String, ∀ c : Int, v₁ ≤ v₂ →
      calculate_cad_lead_score v₁ y n c ≤ calculate_cad_lead_score v₂ y n c) ∧
    (∀ v y₁ y₂ : Int, ∀ n : String, ∀ c : Int, c - y₁ ≤ c - y₂ →
      calculate_cad_lead_score v y₁ n c ≤ calculate_cad_lead_score v y₂ n c) ∧
    (∀ v y : Int, ∀ n₁ n₂ : String, ∀ c : Int,
      n₁.data.contains '&' = true → n₂.data.contains '&' = false →
      calculate_cad_lead_score v y n₁ c =
        min (calculate_cad_lead_score v y n₂ c + 1) 10) := by
  refine ⟨?_, ?_, ?_⟩
  · intro v₁ v₂ y n c h
    rw [score_closedForm v₁ y c (n.data.contains '&') n rfl,
      score_closedForm v₂ y c (n.data.contains '&') n rfl]
    split_ifs <;> omega
  · intro v y₁ y₂ n c h
    rw [score_closedForm v y₁ c (n.data.contains '&') n rfl,
      score_closedForm v y₂ c (n.data.contains '&') n rfl]
    split_ifs <;> omega
  · intro v y n₁ n₂ c h₁ h₂
    rw [score_closedForm v y c true n₁ h₁, score_closedForm v y c false n₂ h₂]
    simp only [if_pos rfl, Bool.false_eq_true, if_false, add_zero]
    split_ifs <;> omega

/-- Witness for C6 amended: value monotonicity at `150000 ≤ 600000`, age
monotonicity at ages `2 ≤ 24`, and the joint-marker relation at a pair of
concrete names — all at clock year 2024. -/
theorem C6_monotone_and_joint_marker_witness :
    ((150000 : Int) ≤ 600000 ∧
      calculate_cad_lead_score 150000 2010 "Jane Doe" 2024 ≤
        calculate_cad_lead_score 600000 2010 "Jane Doe" 2024) ∧
    ((2024 : Int) - 2022 ≤ 2024 - 2000 ∧
      calculate_cad_lead_score 250000 2022 "Jane Doe" 2024 ≤
        calculate_cad_lead_score 250000 2000 "Jane Doe" 2024) ∧
    (("John & Mary Smith").data.contains '&' = true ∧
      ("John Smith").data.contains '&' = false ∧
      calculate_cad_lead_score 250000 2022 "John & Mary Smith" 2024 =
        min (calculate_cad_lead_score 250000 2022 "John Smith" 2024 + 1) 10) :=
  ⟨⟨by decide,
      C6_monotone_and_joint_marker.1 150000 600000 2010 "Jane Doe" 2024 (by decide)⟩,
    ⟨by decide,
      C6_monotone_and_joint_marker.2.1 250000 2022 2000 "Jane Doe" 2024 (by decide)⟩,
    by decide, by decide,
    C6_monotone_and_joint_marker.2.2 250000 2022 "John & Mary Smith" "John Smith" 2024
      (by decide) (by decide)⟩

/-- One pass of the stats loop moves exactly one record into exactly one value
bucket: the `if/elif/else` chain of lines 342–349 is exhaustive and mutually
exclusive, so the bucket total grows by one. -/
lemma statsStep_bucket_sum (acc : StatsAcc) (p : PropertyRecord) :
    (statsStep acc p).value_ranges.under_200k
      + (statsStep acc p).value_ranges.range_200k_400k
      + (statsStep acc p).value_ranges.range_400k_600k
      + (statsStep acc p).value_ranges.over_600k
    = acc.value_ranges.under_200k + acc.value_ranges.range_200k_400k
      + acc.value_ranges.range_400k_600k + acc.value_ranges.over_600k + 1 := by
  simp only [statsStep]
  split_ifs <;> simp <;> omega

/-- Folding the stats loop over a record list grows the bucket total by the
list length. -/
lemma foldl_bucket_sum (l : List PropertyRecord) (acc : StatsAcc) :
    (l.foldl statsStep acc).value_ranges.under_200k
      + (l.foldl statsStep acc).value_ranges.range_200k_400k
      + (l.foldl statsStep acc).value_ranges.range_400k_600k
      + (l.foldl statsStep acc).value_ranges.over_600k
    = acc.value_ranges.under_200k + acc.value_ranges.range_200k_400k
      + acc.value_ranges.range_400k_600k + acc.value_ranges.over_600k + l.length := by
  induction l generalizing acc with
  | nil => simp
  | cons p rest ih =>
    simp only [List.foldl_cons, List.length_cons, ih (statsStep acc p),
      statsStep_bucket_sum]
    omega

/-- C8: on any non-empty record set, `get_cad_stats` returns a stats dict in
which the four value-histogram buckets (`<200k`, `200k–400k`, `400k–600k`,
`≥600k`) partition the records: their counts sum to `total_properties`. -/
theorem C8_bucket_sum_is_total (props : List PropertyRecord) (now : String)
    (h : props ≠ []) :
    ∃ s, get_cad_stats props now = some s ∧
      s.value_ranges.under_200k + s.value_ranges.range_200k_400k
        + s.value_ranges.range_400k_600k + s.value_ranges.over_600k
      = s.total_properties := by
  have hne : props.isEmpty = false := by
    cases props with
    | nil => exact absurd rfl h
    | cons a l => rfl
  refine ⟨_, by rw [get_cad_stats, hne]; rfl, ?_⟩
  simp only [foldl_bucket_sum]
  omega

/-- A fixed concrete record, used to instantiate aggregate statements. -/
def sampleRecord : PropertyRecord :=
  { account_number := "10000-100"
    owner_name := "James Smith"
    property_address := "100 Main St, Conroe, TX 77301"
    city := "Conroe"
    county := "Montgomery County"
    zipcode := "77301"
    property_type := "Single Family Residence"
    year_built := 2000
    square_feet := 2000
    lot_size_acres := 1/2
    appraised_value := 300000
    market_value := 300000
    homestead_exemption := false
    last_sale_date := "2020-01-01"
    last_sale_price := 300000
    cad_url := "https://mctx.org/property-detail/10000-100"
    lead_score := 8
    data_source := "CAD"
    scraped_at := "t" }

/-- Witness for C8 at the non-empty singleton record set `[sampleRecord]`. -/
theorem C8_bucket_sum_is_total_witness :
    [sampleRecord] ≠ [] ∧
    (∃ s, get_cad_stats [sampleRecord] "t" = some s ∧
      s.value_ranges.under_200k + s.value_ranges.range_200k_400k
        + s.value_ranges.range_400k_600k + s.value_ranges.over_600k
      = s.total_properties) :=
  ⟨List.cons_ne_nil _ _,
    C8_bucket_sum_is_total [sampleRecord] "t" (List.cons_ne_nil _ _)⟩

/-- Every record built in the loop for `county` is tagged `'county': county`
(line 173). -/
lemma makeProperty_county (county : String) (info : CadInfo) (cyear : Int)
    (s : String) (d : PropertyDraws) :
    (makeProperty county info cyear s d).county = county :=
  rfl

/-- Counting the records of one county's generation pass that carry a given
county tag: all of them when the tags match, none otherwise. -/
lemma genCountyProperties_countP (county : String) (info : CadInfo) (cyear : Int)
    (s : String) (ds : Nat → PropertyDraws) (target : String) :
    (genCountyProperties county info cyear s ds).countP
        (fun r => r.county == target)
      = if county == target then property_count info.population else 0 := by
  simp only [genCountyProperties, List.countP_map, Function.comp_def,
    makeProperty_county]
  cases h : county == target with
  | true => simp [h]
  | false => simp [h]

/-- Counting records with a given county tag over the whole batch: the sum of
the per-county contributions, in table order. -/
lemma create_countP (cyear : Int) (s : String) (ds : String → Nat → PropertyDraws)
    (target : String) :
    (create_texas_cad_sample_data cyear s ds).countP (fun r => r.county == target)
      = (texas_cads.map
          (fun p => if p.1 == target then property_count p.2.population else 0)).sum := by
  simp only [create_texas_cad_sample_data, List.countP_flatten, List.map_map,
    Function.comp_def, genCountyProperties_countP]

/-- C7: for every configured county, the batch contains exactly
`clamp(population / 100000, 5, 15)` records tagged with that county
(`min(max(int(population / 100000), 5), 15)`, line 133) — whatever the clock
and the random draws; in particular Montgomery County (population `620443`)
always yields `min(max(6, 5), 15) = 6` records. -/
theorem C7_per_county_record_count :
    (∀ county info, (county, info) ∈ texas_cads →
      ∀ cyear s ds, ((create_texas_cad_sample_data cyear s ds).filter
          (fun r => r.county == county)).length
        = min (max (info.population / 100000) 5) 15) ∧
    (∀ cyear s ds, ((create_texas_cad_sample_data cyear s ds).filter
        (fun r => r.county == "Montgomery County")).length = 6) := by
  have key : ∀ county info, (county, info) ∈ texas_cads →
      ∀ cyear s ds, ((create_texas_cad_sample_data cyear s ds).filter
          (fun r => r.county == county)).length
        = min (max (info.population / 100000) 5) 15 := by
    intro county info hmem cyear s ds
    rw [← List.countP_eq_length_filter, create_countP]
    simp only [texas_cads, List.mem_cons, List.not_mem_nil, or_false,
      Prod.mk.injEq] at hmem
    rcases hmem with ⟨h1, h2⟩ | ⟨h1, h2⟩ | ⟨h1, h2⟩ | ⟨h1, h2⟩ | ⟨h1, h2⟩ |
      ⟨h1, h2⟩ | ⟨h1, h2⟩ | ⟨h1, h2⟩ | ⟨h1, h2⟩ | ⟨h1, h2⟩ <;>
      subst h1 <;> subst h2 <;> decide
  refine ⟨key, fun cyear s ds => ?_⟩
  rw [key "Montgomery County"
    ⟨"https://mctx.org", 620443, ["Conroe", "The Woodlands", "Spring", "Tomball"]⟩
    (by decide) cyear s ds]
  decide

/-- A fixed batch of draws, used only to instantiate generator statements at a
concrete random source. -/
def sampleDraws : PropertyDraws :=
  { first_name := "James", last_name := "Smith", joint_draw := 0,
    spouse_first := "Mary", house_number := 100, street := "Main St",
    city := "Conroe", zip_choice := 0, year_built := 2000, square_feet := 2000,
    lot_size := 1/2, value_u := 1, market_u := 1, acct_hi := 10000,
    acct_lo := 100, property_type := "Single Family Residence",
    homestead_choice := false, sale_year := 2020, sale_month := 1, sale_day := 1,
    sale_u := 1 }

/-- Witness for C7 at Montgomery County, clock year 2024 and a fixed draw
source. -/
theorem C7_per_county_record_count_witness :
    ("Montgomery County",
      (⟨"https://mctx.org", 620443, ["Conroe", "The Woodlands", "Spring", "Tomball"]⟩
        : CadInfo)) ∈ texas_cads ∧
    ((create_texas_cad_sample_data 2024 "t" (fun _ _ => sampleDraws)).filter
        (fun r => r.county == "Montgomery County")).length
      = min (max (620443 / 100000) 5) 15 :=
  ⟨by decide,
    C7_per_county_record_count.1 "Montgomery County"
      ⟨"https://mctx.org", 620443, ["Conroe", "The Woodlands", "Spring", "Tomball"]⟩
      (by decide) 2024 "t" (fun _ _ => sampleDraws)⟩

/-- Every county maps to a base value of at least `150000` (the Hidalgo County
minimum of the `base_values` table; unknown counties default to `250000`). -/
lemma get_base_lower (county : String) :
    (150000 : Int) ≤ get_base_property_value county := by
  unfold get_base_property_value base_values
  simp only [List.lookup]
  repeat' split
  all_goals decide

/-- The `appraised_value` field of a generated record, written out
(value derivation of lines 159–162). -/
lemma makeProperty_appraised (county : String) (info : CadInfo) (cyear : Int)
    (s : String) (d : PropertyDraws) :
    (makeProperty county info cyear s d).appraised_value =
      pyint ((get_base_property_value county : ℚ)
        * max (7/10) (1 - (2024 - (d.year_built : ℚ)) * (1/100))
        * ((d.square_feet : ℚ) / 2000) * d.value_u) :=
  rfl

/-- The `market_value` field of a generated record: the truncation of
`appraised_value * market_u` (line 180). -/
lemma makeProperty_market (county : String) (info : CadInfo) (cyear : Int)
    (s : String) (d : PropertyDraws) :
    (makeProperty county info cyear s d).market_value =
      pyint (((makeProperty county info cyear s d).appraised_value : ℚ)
        * d.market_u) :=
  rfl

/-- The Hidalgo County table entry. -/
def hidalgoInfo : CadInfo :=
  ⟨"https://hidalgocad.org", 870781, ["McAllen", "Edinburg", "Mission", "Pharr"]⟩

/-- A reachable draw batch for Hidalgo County that drives `market_value` just
below 95% of `appraised_value`: the valuation multiplier makes
`appraised = 148501` and the market multiplier sits at the lower uniform
endpoint `0.95`, so `market = int(148501 * 0.95) = int(141075.95) = 141075`. -/
def c3Draws : PropertyDraws :=
  { first_name := "James", last_name := "Smith", joint_draw := 0,
    spouse_first := "Mary", house_number := 100, street := "Main St",
    city := "McAllen", zip_choice := 0, year_built := 2023, square_feet := 2000,
    lot_size := 1/2, value_u := 148501/148500, market_u := 19/20,
    acct_hi := 10000, acct_lo := 100, property_type := "Single Family Residence",
    homestead_choice := false, sale_year := 2020, sale_month := 1, sale_day := 1,
    sale_u := 1 }

/-- `c3Draws` lies in the range of the generator's random source. -/
lemma c3Draws_valid : c3Draws.Valid hidalgoInfo := by
  unfold PropertyDraws.Valid
  refine ⟨by decide, by decide, by norm_num [c3Draws], by norm_num [c3Draws],
    by decide, by decide, by decide, by decide, by decide, by decide, by decide,
    by decide, by decide, by norm_num [c3Draws], by norm_num [c3Draws],
    by norm_num [c3Draws], by norm_num [c3Draws], by norm_num [c3Draws],
    by norm_num [c3Draws], by decide, by decide, by decide, by decide, by decide,
    by decide, by decide, by decide, by decide, by decide, by decide,
    by norm_num [c3Draws], by norm_num [c3Draws]⟩

/-- The record generated for Hidalgo County from `c3Draws`. -/
def c3Record : PropertyRecord :=
  makeProperty "Hidalgo County" hidalgoInfo 2024 "t" c3Draws

/-- C3 counterexample: a generated record whose market value is **not** within
5% of its appraised value.  Because `market_value = int(appraised * u)`
truncates, `u = 0.95` (a value `random.uniform(0.95, 1.05)` can return) and
`appraised = 148501` give `market = 141075`, and
`148501 - 141075 = 7426 > 7425.05 = 0.05 * 148501`.  The draws are reachable
(Hidalgo County is configured and every draw is inside its random range). -/
theorem C3_market_within_five_percent_counterexample :
    ("Hidalgo County", hidalgoInfo) ∈ texas_cads ∧
    c3Draws.Valid hidalgoInfo ∧
    0 < c3Record.appraised_value ∧
    c3Record.appraised_value = 148501 ∧
    c3Record.market_value = 141075 ∧
    ¬ (|(c3Record.market_value : ℚ) - (c3Record.appraised_value : ℚ)|
        ≤ (5/100) * (c3Record.appraised_value : ℚ)) := by
  have ha : c3Record.appraised_value = 148501 := by
    show pyint (((150000 : Int) : ℚ)
      * max (7/10) (1 - (2024 - ((2023 : Int) : ℚ)) * (1/100))
      * (((2000 : Int) : ℚ) / 2000) * (148501/148500)) = 148501
    have hmax : (1 - (2024 - ((2023 : Int) : ℚ)) * (1/100)) = 99/100 := by
      push_cast
      norm_num
    rw [hmax, max_eq_right (by norm_num : (7 : ℚ)/10 ≤ 99/100)]
    have harg : ((150000 : Int) : ℚ) * (99/100) * (((2000 : Int) : ℚ) / 2000)
        * (148501/148500) = 148501 := by
      push_cast
      norm_num
    rw [harg]
    norm_num [pyint]
  have hm : c3Record.market_value = 141075 := by
    rw [c3Record, makeProperty_market]
    have ha' : (makeProperty "Hidalgo County" hidalgoInfo 2024 "t" c3Draws).appraised_value
        = 148501 := ha
    rw [ha']
    have harg : ((148501 : Int) : ℚ) * c3Draws.market_u = 2821519/20 := by
      rw [show c3Draws.market_u = 19/20 from rfl]
      push_cast
      norm_num
    rw [harg]
    norm_num [pyint]
  refine ⟨by decide, c3Draws_valid, by rw [ha]; norm_num, ha, hm, ?_⟩
  rw [ha, hm]
  intro hcontra
  rw [abs_of_nonpos (by push_cast; norm_num)] at hcontra
  push_cast at hcontra
  norm_num at hcontra

/-- C3 amended: for every generated record (any configured or unknown county,
any clock year, any draws inside the random source's ranges),
`appraised_value > 0`, and `market_value` is within 5% of `appraised_value`
up to the one unit lost to `int(...)` truncation:
`⌊0.95 * appraised⌋ ≤ market ≤ ⌊1.05 * appraised⌋`.  (The untruncated claim
fails by strictly less than one unit; see the counterexample.) -/
theorem C3_appraised_positive_market_bounds (county : String) (info : CadInfo)
    (cyear : Int) (s : String) (d : PropertyDraws) (hv : d.Valid info) :
    0 < (makeProperty county info cyear s d).appraised_value ∧
    ⌊((makeProperty county info cyear s d).appraised_value : ℚ) * (19/20)⌋
      ≤ (makeProperty county info cyear s d).market_value ∧
    (makeProperty county info cyear s d).market_value
      ≤ ⌊((makeProperty county info cyear s d).appraised_value : ℚ) * (21/20)⌋ := by
  obtain ⟨-, -, -, -, -, -, -, -, -, -, -, hsf1, -, -, -, hu1, -, hm1, hm2, -⟩ := hv
  have hb : (150000 : ℚ) ≤ (get_base_property_value county : ℚ) := by
    exact_mod_cast get_base_lower county
  have haf : (7/10 : ℚ) ≤ max (7/10) (1 - (2024 - (d.year_built : ℚ)) * (1/100)) :=
    le_max_left _ _
  have hsf : (3/5 : ℚ) ≤ (d.square_feet : ℚ) / 2000 := by
    have h12 : (1200 : ℚ) ≤ (d.square_feet : ℚ) := by exact_mod_cast hsf1
    have h : (1200 : ℚ) / 2000 ≤ (d.square_feet : ℚ) / 2000 := by gcongr
    linarith
  rw [makeProperty_market, makeProperty_appraised]
  set b := (get_base_property_value county : ℚ) with hbdef
  set af := max (7/10 : ℚ) (1 - (2024 - (d.year_built : ℚ)) * (1/100)) with hafdef
  set sf := (d.square_feet : ℚ) / 2000 with hsfdef
  have hq1 : (1 : ℚ) ≤ b * af * sf * d.value_u := by
    have h : (150000 : ℚ) * (7/10) * (3/5) * (4/5) ≤ b * af * sf * d.value_u := by
      gcongr
    linarith
  have hq0 : (0 : ℚ) ≤ b * af * sf * d.value_u := by linarith
  have hA : 0 < pyint (b * af * sf * d.value_u) := by
    rw [pyint, if_pos hq0]
    exact_mod_cast Int.le_floor.mpr (by exact_mod_cast hq1)
  set A := pyint (b * af * sf * d.value_u) with hAdef
  have hA0 : (0 : ℚ) ≤ (A : ℚ) := by exact_mod_cast Int.le_of_lt hA
  have hlo : (A : ℚ) * (19/20) ≤ (A : ℚ) * d.market_u :=
    mul_le_mul_of_nonneg_left hm1 hA0
  have hhi : (A : ℚ) * d.market_u ≤ (A : ℚ) * (21/20) :=
    mul_le_mul_of_nonneg_left hm2 hA0
  have h0 : (0 : ℚ) ≤ (A : ℚ) * d.market_u := by nlinarith
  refine ⟨hA, ?_, ?_⟩
  · rw [pyint, if_pos h0]
    exact Int.floor_le_floor hlo
  · rw [pyint, if_pos h0]
    exact Int.floor_le_floor hhi

/-- Witness for C3 amended, at Hidalgo County with the valid draw batch
`c3Draws`. -/
theorem C3_appraised_positive_market_bounds_witness :
    c3Draws.Valid hidalgoInfo ∧
    (0 < (makeProperty "Hidalgo County" hidalgoInfo 2024 "t" c3Draws).appraised_value ∧
      ⌊((makeProperty "Hidalgo County" hidalgoInfo 2024 "t" c3Draws).appraised_value : ℚ)
          * (19/20)⌋
        ≤ (makeProperty "Hidalgo County" hidalgoInfo 2024 "t" c3Draws).market_value ∧
      (makeProperty "Hidalgo County" hidalgoInfo 2024 "t" c3Draws).market_value
        ≤ ⌊((makeProperty "Hidalgo County" hidalgoInfo 2024 "t" c3Draws).appraised_value : ℚ)
            * (21/20)⌋) :=
  ⟨c3Draws_valid,
    C3_appraised_positive_market_bounds "Hidalgo County" hidalgoInfo 2024 "t"
      c3Draws c3Draws_valid⟩

end TexasCAD
